import Mathlib

/-!
Verification of the lifecycle orchestrator in pkg/crc/machine/machine.go.

The Go code is embedded shallowly: every fallible collaborator call (hypervisor
driver, instance store, SSH transport, service commander, cluster API client)
is represented by one field of an explicit environment record holding the
result that call would have produced, and each entry point (Start, Status,
Delete, Exists) becomes a pure Lean function from its configuration and
environment to an outcome, paired with the chronological list of collaborator
calls it performed (the event trace).  Collaborator code that belongs to this
repository but is not part of the given source tree (pkg/crc/errors.RetryAfter,
pkg/crc/network.ProxyConfig, parts of pkg/crc/cluster) is modelled from the
specification; each such definition says so in its doc comment.
-/

namespace Crc

/-- VM lifecycle states as reported by the libmachine driver
(libmachine/state); the orchestrator only ever branches on Running. -/
inductive VMState
  | Running
  | Paused
  | Saved
  | Stopped
  | Error
  | Timeout
  | Missing
  deriving DecidableEq, Repr

/-- The string rendering used by `vmState.String()` in the Go code. -/
def VMState.str : VMState → String
  | .Running => "Running"
  | .Paused => "Paused"
  | .Saved => "Saved"
  | .Stopped => "Stopped"
  | .Error => "Error"
  | .Timeout => "Timeout"
  | .Missing => "Missing"

/-- `IsRunning` from machine.go: true exactly on the Running driver state. -/
def IsRunning (st : VMState) : Bool := st == VMState.Running

/-- One collaborator call performed by an entry point; the trace of a run is
the chronological list of these.  Driver mutations are `driverCreate`,
`driverStart`, `saveMachine`, `driverRemove`, `storeRemove`. -/
inductive Event
  | getPullSecret
  | getBundleInfo
  | checkDiskSize
  | driverCreate
  | loadMachine
  | getBundleName
  | getState
  | driverStart
  | saveMachine
  | loadMachine2
  | getState2
  | waitForSSH
  | checkCerts
  | addNameServer
  | getIP
  | determineHostIP
  | applyProxyEnv
  | dnsPostStart
  | dnsCheckInternal
  | dnsCheckPublic
  | dnsCheckHost
  | updateSSHKey
  | copyKubeconfigLocal
  | copyKubeconfigVM
  | regenerateCerts
  | startKubelet
  | addProxyToCluster
  | addProxyToKubeletCrio
  | restartCrio
  | restartKubelet
  | addPullSecret
  | updateClusterID
  | isActiveKubelet
  | waitCAFile
  | deleteAPIServerPods
  | sleepSettle
  | approveCSR
  | proxyPropagationWait
  | driverRemove
  | storeRemove
  deriving DecidableEq, Repr

/-- Modelled from the spec: the retriable-error marker of pkg/crc/errors
(not under src/).  An action either fails with an error tagged retriable,
which the retry primitive consumes, or with any other (fatal) error, which
aborts the retry loop immediately. -/
inductive RetryErr
  | retriable (msg : String)
  | fatal (msg : String)
  deriving DecidableEq, Repr

/-- The message carried by a retry error. -/
def RetryErr.msg : RetryErr → String
  | .retriable m => m
  | .fatal m => m

/-- Modelled from the spec: the tail of `RetryAfter` from pkg/crc/errors
(not under src/) after the first attempt.  `r` attempts remain, `i` attempts
were already made, `slept` time units were already slept, and `last` is the
error of the most recent (retriable) attempt.  Every remaining attempt is
preceded by a sleep of `d`; a successful or fatally-failing attempt stops the
loop at once; exhaustion returns the last retriable error.  The result is
(final error if any, total attempts made, total time slept). -/
def retryAfterGo (a : Nat → Option RetryErr) (d : Nat) :
    Nat → Nat → Nat → Option RetryErr → Option RetryErr × Nat × Nat
  | 0, i, slept, last => (last, i, slept)
  | r + 1, i, slept, _last =>
    match a i with
    | none => (none, i + 1, slept + d)
    | some (RetryErr.fatal msg) => (some (RetryErr.fatal msg), i + 1, slept + d)
    | some (RetryErr.retriable msg) =>
        retryAfterGo a d r (i + 1) (slept + d) (some (RetryErr.retriable msg))

/-- Modelled from the spec: `RetryAfter(maxAttempts, action, interval)` from
pkg/crc/errors (not under src/).  Invokes the action up to `n` times with a
sleep of `d` between consecutive attempts (no sleep before the first attempt
and none after the last).  Attempt `i` of the Go closure is modelled as `a i`:
`none` is success, `some (retriable m)` asks for another attempt, and
`some (fatal m)` aborts immediately.  Returns the final error (the first
non-retriable error, or the last retriable error on exhaustion, or none on
success), the number of attempts made, and the total time slept. -/
def RetryAfter (n : Nat) (a : Nat → Option RetryErr) (d : Nat) :
    Option RetryErr × Nat × Nat :=
  match n with
  | 0 => (none, 0, 0)
  | r + 1 =>
    match a 0 with
    | none => (none, 1, 0)
    | some (RetryErr.fatal msg) => (some (RetryErr.fatal msg), 1, 0)
    | some (RetryErr.retriable msg) =>
        retryAfterGo a d r 1 0 (some (RetryErr.retriable msg))

/-- Modelled from the spec: `ProxyConfig` of pkg/crc/network (not under
src/): the HTTP and HTTPS proxy URLs read from the ambient environment and
the no-proxy exception list. -/
structure ProxyConfig where
  httpProxy : String
  httpsProxy : String
  noProxy : List String
  deriving Repr

/-- Modelled from the spec: enabled is true iff any proxy URL is set. -/
def ProxyConfig.IsEnabled (p : ProxyConfig) : Bool :=
  p.httpProxy != "" || p.httpsProxy != ""

/-- Modelled from the spec: `AddNoProxy` appends an entry to the no-proxy
list (duplicates are tolerated by downstream consumers). -/
def ProxyConfig.AddNoProxy (p : ProxyConfig) (entry : String) : ProxyConfig :=
  { p with noProxy := p.noProxy ++ [entry] }

/-- `getProxyConfig` from machine.go: resolve the ambient proxy
configuration (`network.NewProxyConfig()`, whose result or failure is the
`ambient` argument) and, when it is enabled, add `.{baseDomainName}` to the
no-proxy list. -/
def getProxyConfig (ambient : Except String ProxyConfig) (baseDomainName : String) :
    Except String ProxyConfig :=
  match ambient with
  | .error e => .error e
  | .ok proxy =>
    if proxy.IsEnabled then .ok (proxy.AddNoProxy ("." ++ baseDomainName))
    else .ok proxy

/-- Splits a character list at every slash, keeping empty components. -/
def splitSlash : List Char → List (List Char)
  | [] => [[]]
  | c :: cs =>
    let r := splitSlash cs
    if c = '/' then [] :: r
    else
      match r with
      | [] => [[c]]
      | h :: t => (c :: h) :: t

/-- `filepath.Base` as used by machine.go on slash-separated paths: the last
non-empty path component; "." for the empty path and "/" for an all-slash
path. -/
def filepathBase (p : String) : String :=
  match ((splitSlash p.data).filter (fun c => c ≠ [])).getLast? with
  | some c => String.mk c
  | none => if p.data = [] then "." else "/"

/-- The bundle metadata the orchestrator reads (bundle.CrcBundleInfo):
the bundle name, the cluster base domain, the OpenShift version string
(possibly empty), the result of reading the kubeadmin password from the
bundle, and the kubeconfig path. -/
structure Bundle where
  name : String
  baseDomain : String
  openshiftVersion : String
  kubeadminPassword : Except String String
  kubeConfigPath : String
  deriving Repr

/-- constants.DefaultWebConsoleURL. -/
def defaultWebConsoleURL : String := "https://console-openshift-console.apps-crc.testing"

/-- constants.DefaultAPIURL. -/
def defaultAPIURL : String := "https://api.crc.testing:6443"

/-- `ClusterConfig` from machine.go. -/
structure ClusterConfig where
  kubeConfig : String
  kubeAdminPass : String
  webConsoleURL : String
  clusterAPI : String
  proxyConfig : ProxyConfig
  deriving Repr

/-- `getClusterConfig` from machine.go: read the kubeadmin password from the
bundle, resolve the proxy configuration for the bundle base domain, and
assemble the cluster configuration. -/
def getClusterConfig (ambient : Except String ProxyConfig) (b : Bundle) :
    Except String ClusterConfig :=
  match b.kubeadminPassword with
  | .error e => .error ("Error reading kubeadmin password from bundle " ++ e)
  | .ok pass =>
    match getProxyConfig ambient b.baseDomain with
    | .error e => .error e
    | .ok proxy =>
      .ok { kubeConfig := b.kubeConfigPath
            kubeAdminPass := pass
            webConsoleURL := defaultWebConsoleURL
            clusterAPI := defaultAPIURL
            proxyConfig := proxy }

/-- `getBundleMetadataFromDriver` from machine.go: ask the driver for the
recorded bundle name (an empty name counts as failure, like a failed call),
then load the cached bundle metadata under that name. -/
def getBundleMetadataFromDriver (driverBundleName : Except String String)
    (cached : Except String Bundle) : Except String (String × Bundle) :=
  match driverBundleName with
  | .error _ =>
      .error "Error getting bundle name from CodeReady Containers instance, make sure you ran crc setup and are using the latest bundle"
  | .ok bn =>
    if bn = "" then
      .error "Error getting bundle name from CodeReady Containers instance, make sure you ran crc setup and are using the latest bundle"
    else
      match cached with
      | .error e => .error e
      | .ok b => .ok (bn, b)

/-- The environment of one `Exists` call: the result of initializing the
libmachine client and the result of the underlying store existence query. -/
structure ExistsEnv where
  clientInit : Except String Unit
  storeExists : Except String Bool

/-- `Exists` from machine.go: returns the existence flag together with an
optional error; on any failure the flag is false and the error is set. -/
def ExistsCheck (env : ExistsEnv) : Bool × Option String :=
  match env.clientInit with
  | .error e => (false, some e)
  | .ok _ =>
    match env.storeExists with
    | .error e => (false, some ("Error checking if the host exists: " ++ e))
    | .ok b => (b, none)

/-- The environment of one `Delete` call. -/
structure DeleteEnv where
  clientInit : Except String Unit
  load : Except String Unit
  driverRemove : Except String Unit
  storeRemove : Except String Unit

/-- Outcome of `Delete`: the structured result or a staged error. -/
inductive DeleteOutcome
  | ok (name : String)
  | err (name stage cause : String)
  deriving DecidableEq, Repr

/-- `Delete` from machine.go: load the machine, ask the driver to remove the
VM, and only then remove the persisted record; the first failure is returned
as the staged error of the command. -/
def Delete (name : String) (env : DeleteEnv) : DeleteOutcome × List Event :=
  match env.clientInit with
  | .error e => (.err name "Cannot initialize libmachine" e, [])
  | .ok _ =>
  match env.load with
  | .error e => (.err name "Cannot load machine" e, [.loadMachine])
  | .ok _ =>
  match env.driverRemove with
  | .error e => (.err name "Driver cannot remove machine" e, [.loadMachine, .driverRemove])
  | .ok _ =>
  match env.storeRemove with
  | .error e => (.err name "Cannot remove machine" e, [.loadMachine, .driverRemove, .storeRemove])
  | .ok _ => (.ok name, [.loadMachine, .driverRemove, .storeRemove])

/-- Aggregate cluster-operator health flags (cluster.Status). -/
structure OperatorsStatus where
  Available : Bool
  Degraded : Bool
  Progressing : Bool
  deriving DecidableEq, Repr

/-- The environment of one `Status` call. -/
structure StatusEnv where
  clientInit : Except String Unit
  storeExists : Except String Bool
  load : Except String Unit
  getState : Except String VMState
  driverBundleName : Except String String
  cachedBundle : Except String Bundle
  ambientProxy : Except String ProxyConfig
  operatorsQuery : Except String OperatorsStatus
  rootPartitionUsage : Except String (Int × Int)

/-- The structured result reported by `Status`. -/
structure ClusterStatusResult where
  name : String
  crcStatus : String
  openshiftStatus : String
  diskUse : Int
  diskSize : Int
  success : Bool
  deriving DecidableEq, Repr

/-- Outcome of `Status`. -/
inductive StatusOutcome
  | ok (res : ClusterStatusResult)
  | err (name stage cause : String)
  deriving DecidableEq, Repr

/-- `Status` from machine.go.  Not running reports a fixed Stopped cluster
status with zeroed disk metrics.  Running resolves bundle metadata and proxy
configuration, queries the aggregate operator status — a failed query sets
the human status to Not Reachable instead of failing the command (modelled
from the spec: cluster.GetClusterOperatorsStatus of pkg/crc/cluster is not
under src/; on failure it yields its zero value, with no flag set, so the
precedence switch below keeps the fallback string) — maps the flags by the
precedence Available over Degraded over Progressing, and finally queries the
root partition usage over SSH, which is fatal on failure. -/
def Status (name : String) (env : StatusEnv) : StatusOutcome :=
  match env.clientInit with
  | .error e => .err name "Cannot initialize libmachine" e
  | .ok _ =>
  match env.storeExists with
  | .error e => .err name "Cannot check if machine exists" e
  | .ok _ =>
  match env.load with
  | .error e => .err name "Cannot load machine" e
  | .ok _ =>
  match env.getState with
  | .error e => .err name "Cannot get machine state" e
  | .ok vmStatus =>
  if IsRunning vmStatus then
    match getBundleMetadataFromDriver env.driverBundleName env.cachedBundle with
    | .error e => .err name "Error loading bundle metadata" e
    | .ok (_, b) =>
    match getProxyConfig env.ambientProxy b.baseDomain with
    | .error e => .err name "Error getting proxy configuration" e
    | .ok _ =>
    let queried : OperatorsStatus × Bool :=
      match env.operatorsQuery with
      | .error _ => (⟨false, false, false⟩, true)
      | .ok s => (s, false)
    let base := if queried.2 then "Not Reachable" else "Stopped"
    let version := if b.openshiftVersion = "" then "4.x" else b.openshiftVersion
    let openshiftStatus :=
      if queried.1.Available then "Running (v" ++ version ++ ")"
      else if queried.1.Degraded then "Degraded"
      else if queried.1.Progressing then "Starting"
      else base
    match env.rootPartitionUsage with
    | .error e => .err name "Cannot get root partition usage" e
    | .ok (diskSize, diskUse) =>
      .ok ⟨name, vmStatus.str, openshiftStatus, diskUse, diskSize, true⟩
  else
    .ok ⟨name, vmStatus.str, "Stopped", 0, 0, true⟩

/-- Result of the certificate validity probe (`cluster.CheckCertsValidity`):
either no error, or an error accompanied by the Expired state, or an error
with any other state. -/
inductive CertCheckResult
  | valid
  | expiredErr (e : String)
  | otherErr (e : String)
  deriving DecidableEq, Repr

/-- The caller-supplied parameters of `Start` (`StartConfig` in machine.go). -/
structure StartConfig where
  name : String
  bundlePath : String
  nameServer : String
  cpus : Nat
  memory : Nat
  deriving Repr

/-- The environment of one `Start` invocation: the result each collaborator
call would produce, in the order the Go code makes the calls. -/
structure StartEnv where
  clientInit : Except String Unit
  existsEnv : ExistsEnv
  getPullSecret : Except String String
  bundleFromPath : Except String Bundle
  diskSizeCheck : Except String Unit
  createHost : Except String Unit
  loadHost : Except String Unit
  driverBundleName : Except String String
  cachedBundle : Except String Bundle
  getState1 : Except String VMState
  driverStart : Except String Unit
  saveMachine : Except String Unit
  loadHost2 : Except String Unit
  getState2 : Except String VMState
  waitSSH : Except String Unit
  certsCheck : CertCheckResult
  addNameServer : Except String Unit
  getIP : Except String String
  hostIPAttempt : Nat → Except String String
  ambientProxy : Except String ProxyConfig
  dnsPostStart : Except String Unit
  dnsLocal : Except String Unit
  dnsPublic : Except String Unit
  dnsHost : Except String Unit
  updateSSHKey : Except String Unit
  copyKubeconfigLocal : Except String Unit
  copyKubeconfigVM : Except String Unit
  regenerateCerts : Except String Unit
  startKubelet : Except String Unit
  addProxyCluster : Except String Unit
  addProxyKubeletCrio : Except String Unit
  restartCrio : Except String Unit
  restartKubelet : Except String Unit
  addPullSecret : Except String Unit
  updateClusterID : Except String Unit
  isActiveKubelet : Except String Bool
  waitCAFile : Except String Unit
  deletePods : Except String Unit
  approveCSR : Except String Unit
  proxyPropagationAttempt : Nat → Except String Bool

/-- The structured result of a successful `Start`. -/
structure StartResult where
  name : String
  kubeletStarted : Bool
  clusterConfig : Option ClusterConfig
  status : String
  deriving Repr

/-- Outcome of `Start`: the result, or the stage label and underlying cause
passed to `startError`. -/
inductive StartOutcome
  | ok (res : StartResult)
  | err (name stage cause : String)
  deriving Repr

/-- Prepends one event to the trace of a continuation result. -/
def withEvent (e : Event) (r : StartOutcome × List Event) : StartOutcome × List Event :=
  (r.1, e :: r.2)

/-- Prepends several events to the trace of a continuation result. -/
def withEvents (es : List Event) (r : StartOutcome × List Event) : StartOutcome × List Event :=
  (r.1, es ++ r.2)

/-- The `determineHostIP` closure of machine.go as a retry action: a failed
`network.DetermineHostIP` is wrapped into a retriable error, success ends the
retry loop. -/
def hostIPAction (env : StartEnv) : Nat → Option RetryErr := fun i =>
  match env.hostIPAttempt i with
  | .error e => some (RetryErr.retriable e)
  | .ok _ => none

/-- The host-IP discovery retry of machine.go:
`errors.RetryAfter(30, determineHostIP, 2*time.Second)`. -/
def startHostIPRetry (env : StartEnv) : Option RetryErr × Nat × Nat :=
  RetryAfter 30 (hostIPAction env) 2

/-- The `checkProxySettingsForOperator` closure of `waitForProxyPropagation`:
a failed query and a not-yet-propagated answer are both retriable, a
propagated answer ends the retry loop. -/
def proxyCheckAction (env : StartEnv) : Nat → Option RetryErr := fun i =>
  match env.proxyPropagationAttempt i with
  | .error e => some (RetryErr.retriable e)
  | .ok proxySet => if proxySet then none else some (RetryErr.retriable "")

/-- `waitForProxyPropagation` from machine.go:
`errors.RetryAfter(60, checkProxySettingsForOperator, 2*time.Second)`;
exhaustion is only logged, so the retry outcome is returned for inspection
and ignored by the caller. -/
def waitForProxyPropagation (env : StartEnv) : Option RetryErr × Nat × Nat :=
  RetryAfter 60 (proxyCheckAction env) 2

/-- `configProxyForCluster` from machine.go.  When the proxy is disabled it
returns at once, before the deferred restart is registered.  Otherwise it
pushes the proxy settings into the cluster and into the kubelet/crio service
configuration, and the deferred function then restarts the crio and kubelet
services regardless of whether either push succeeded; a restart failure
overwrites the returned error (kubelet last). -/
def configProxyForCluster (env : StartEnv) (proxy : ProxyConfig) (_instanceIP : String) :
    Except String Unit × List Event :=
  if proxy.IsEnabled then
    let push : Except String Unit × List Event :=
      match env.addProxyCluster with
      | .error e => (.error e, [.addProxyToCluster])
      | .ok _ =>
        match env.addProxyKubeletCrio with
        | .error e => (.error e, [.addProxyToCluster, .addProxyToKubeletCrio])
        | .ok _ => (.ok (), [.addProxyToCluster, .addProxyToKubeletCrio])
    let afterCrio : Except String Unit :=
      match env.restartCrio with
      | .error e => .error e
      | .ok _ => push.1
    let final : Except String Unit :=
      match env.restartKubelet with
      | .error e => .error e
      | .ok _ => afterCrio
    (final, push.2 ++ [.restartCrio, .restartKubelet])
  else (.ok (), [])

/-- `configureCluster` from machine.go: configure the proxy for the cluster,
then add the user pull secret and update the cluster ID, each failure being
wrapped with its own message. -/
def configureCluster (env : StartEnv) (proxy : ProxyConfig) (instanceIP : String) :
    Except String Unit × List Event :=
  match configProxyForCluster env proxy instanceIP with
  | (.error e, t) => (.error ("Failed to configure proxy for cluster: " ++ e), t)
  | (.ok _, t) =>
    match env.addPullSecret with
    | .error e => (.error ("Failed to update user pull secret or cluster ID: " ++ e), t ++ [.addPullSecret])
    | .ok _ =>
      match env.updateClusterID with
      | .error e => (.error ("Failed to update cluster ID: " ++ e), t ++ [.addPullSecret, .updateClusterID])
      | .ok _ => (.ok (), t ++ [.addPullSecret, .updateClusterID])

/-- Final stage of `Start`: when the proxy is enabled, wait (best effort) for
the proxy settings to propagate; the retry outcome is only logged, so both
answers produce the same success result. -/
def stepProxyWait (cfg : StartConfig) (env : StartEnv) (proxy : ProxyConfig)
    (started : Bool) (cc : ClusterConfig) (vmStr : String) : StartOutcome × List Event :=
  if proxy.IsEnabled then
    match (waitForProxyPropagation env).1 with
    | some _ => (.ok ⟨cfg.name, started, some cc, vmStr⟩, [.proxyPropagationWait])
    | none => (.ok ⟨cfg.name, started, some cc, vmStr⟩, [.proxyPropagationWait])
  else (.ok ⟨cfg.name, started, some cc, vmStr⟩, [])

/-- The fixed three-minute settle delay followed by node CSR approval. -/
def stepApprove (cfg : StartConfig) (env : StartEnv) (proxy : ProxyConfig)
    (started : Bool) (cc : ClusterConfig) (vmStr : String) : StartOutcome × List Event :=
  match env.approveCSR with
  | .error e => (.err cfg.name "Error approving the node csr" e, [.sleepSettle, .approveCSR])
  | .ok _ => withEvents [.sleepSettle, .approveCSR] (stepProxyWait cfg env proxy started cc vmStr)

/-- Kubelet-active confirmation; when active, run the client-ca refresh wait
and the API-server pod deletion remediation, both fatal on failure. -/
def stepKubeletActive (cfg : StartConfig) (env : StartEnv) (proxy : ProxyConfig)
    (cc : ClusterConfig) (vmStr : String) : StartOutcome × List Event :=
  match env.isActiveKubelet with
  | .error e => (.err cfg.name "kubelet service is not running" e, [.isActiveKubelet])
  | .ok started =>
  if started then
    match env.waitCAFile with
    | .error e => (.err cfg.name "Failed to wait for the client-ca request header update" e,
        [.isActiveKubelet, .waitCAFile])
    | .ok _ =>
    match env.deletePods with
    | .error e => (.err cfg.name "Cannot delete OpenShift API Server pods" e,
        [.isActiveKubelet, .waitCAFile, .deleteAPIServerPods])
    | .ok _ => withEvents [.isActiveKubelet, .waitCAFile, .deleteAPIServerPods]
        (stepApprove cfg env proxy true cc vmStr)
  else withEvent .isActiveKubelet (stepApprove cfg env proxy false cc vmStr)

/-- First-boot-only cluster configuration. -/
def stepConfigure (cfg : StartConfig) (env : StartEnv) (isNew : Bool) (proxy : ProxyConfig)
    (ip : String) (cc : ClusterConfig) (vmStr : String) : StartOutcome × List Event :=
  if isNew then
    match configureCluster env proxy ip with
    | (.error e, t) => (.err cfg.name "Error Setting cluster config" e, t)
    | (.ok _, t) => withEvents t (stepKubeletActive cfg env proxy cc vmStr)
  else stepKubeletActive cfg env proxy cc vmStr

/-- Kubelet activation via the service commander, fatal on failure. -/
def stepStartKubelet (cfg : StartConfig) (env : StartEnv) (isNew : Bool) (proxy : ProxyConfig)
    (ip : String) (cc : ClusterConfig) (vmStr : String) : StartOutcome × List Event :=
  match env.startKubelet with
  | .error e => (.err cfg.name "Error starting kubelet" e, [.startKubelet])
  | .ok _ => withEvent .startKubelet (stepConfigure cfg env isNew proxy ip cc vmStr)

/-- Certificate renewal, run only when the probe reported expired
certificates, before the kubelet service is started. -/
def stepRenew (cfg : StartConfig) (env : StartEnv) (isNew needsCertsRenewal : Bool)
    (proxy : ProxyConfig) (ip : String) (cc : ClusterConfig) (vmStr : String) :
    StartOutcome × List Event :=
  if needsCertsRenewal then
    match env.regenerateCerts with
    | .error e => (.err cfg.name "Failed to renew TLS certificates: please check if a newer CodeReady Containers release is available" e, [.regenerateCerts])
    | .ok _ => withEvent .regenerateCerts
        (stepStartKubelet cfg env isNew proxy ip cc vmStr)
  else stepStartKubelet cfg env isNew proxy ip cc vmStr

/-- First-boot-only provisioning: fresh SSH key pair and kubeconfig
propagation into the instance directory and into the VM. -/
def stepFirstBoot (cfg : StartConfig) (env : StartEnv) (isNew needsCertsRenewal : Bool)
    (proxy : ProxyConfig) (ip : String) (cc : ClusterConfig) (vmStr : String) :
    StartOutcome × List Event :=
  if isNew then
    match env.updateSSHKey with
    | .error e => (.err cfg.name "Error updating public key" e, [.updateSSHKey])
    | .ok _ =>
    match env.copyKubeconfigLocal with
    | .error e => (.err cfg.name "Error copying kubeconfig file" e,
        [.updateSSHKey, .copyKubeconfigLocal])
    | .ok _ =>
    match env.copyKubeconfigVM with
    | .error e => (.err cfg.name "Error copying kubeconfig file in VM" e,
        [.updateSSHKey, .copyKubeconfigLocal, .copyKubeconfigVM])
    | .ok _ => withEvents [.updateSSHKey, .copyKubeconfigLocal, .copyKubeconfigVM]
        (stepRenew cfg env isNew needsCertsRenewal proxy ip cc vmStr)
  else stepRenew cfg env isNew needsCertsRenewal proxy ip cc vmStr

/-- Host-side DNS check through the VM, fatal on failure. -/
def stepDNSHost (cfg : StartConfig) (env : StartEnv) (isNew needsCertsRenewal : Bool)
    (proxy : ProxyConfig) (ip : String) (cc : ClusterConfig) (vmStr : String) :
    StartOutcome × List Event :=
  match env.dnsHost with
  | .error e => (.err cfg.name "Failed to query DNS from host" e, [.dnsCheckHost])
  | .ok _ => withEvent .dnsCheckHost
      (stepFirstBoot cfg env isNew needsCertsRenewal proxy ip cc vmStr)

/-- In-VM public-names DNS check: a failure is logged as a warning only, so
both answers continue identically. -/
def stepDNSPublic (cfg : StartConfig) (env : StartEnv) (isNew needsCertsRenewal : Bool)
    (proxy : ProxyConfig) (ip : String) (cc : ClusterConfig) (vmStr : String) :
    StartOutcome × List Event :=
  match env.dnsPublic with
  | .error _ => withEvent .dnsCheckPublic
      (stepDNSHost cfg env isNew needsCertsRenewal proxy ip cc vmStr)
  | .ok _ => withEvent .dnsCheckPublic
      (stepDNSHost cfg env isNew needsCertsRenewal proxy ip cc vmStr)

/-- In-VM internal-names DNS check, fatal on failure. -/
def stepDNSInternal (cfg : StartConfig) (env : StartEnv) (isNew needsCertsRenewal : Bool)
    (proxy : ProxyConfig) (ip : String) (cc : ClusterConfig) (vmStr : String) :
    StartOutcome × List Event :=
  match env.dnsLocal with
  | .error e => (.err cfg.name "Failed internal DNS query" e, [.dnsCheckInternal])
  | .ok _ => withEvent .dnsCheckInternal
      (stepDNSPublic cfg env isNew needsCertsRenewal proxy ip cc vmStr)

/-- Start of the in-VM DNS server, fatal on failure. -/
def stepDNSPostStart (cfg : StartConfig) (env : StartEnv) (isNew needsCertsRenewal : Bool)
    (proxy : ProxyConfig) (ip : String) (cc : ClusterConfig) (vmStr : String) :
    StartOutcome × List Event :=
  match env.dnsPostStart with
  | .error e => (.err cfg.name "Error running post start" e, [.dnsPostStart])
  | .ok _ => withEvent .dnsPostStart
      (stepDNSInternal cfg env isNew needsCertsRenewal proxy ip cc vmStr)

/-- Re-resolution of the proxy configuration against the bundle base domain,
followed by applying it to the process environment. -/
def stepProxyEnv (cfg : StartConfig) (env : StartEnv) (b : Bundle)
    (isNew needsCertsRenewal : Bool) (ip : String) (cc : ClusterConfig) (vmStr : String) :
    StartOutcome × List Event :=
  match getProxyConfig env.ambientProxy b.baseDomain with
  | .error e => (.err cfg.name "Error getting proxy configuration" e, [])
  | .ok proxy => withEvent .applyProxyEnv
      (stepDNSPostStart cfg env isNew needsCertsRenewal proxy ip cc vmStr)

/-- Retry-wrapped host-IP discovery (30 attempts, 2 seconds apart); an
exhausted or fatal retry is fatal for Start. -/
def stepHostIP (cfg : StartConfig) (env : StartEnv) (b : Bundle)
    (isNew needsCertsRenewal : Bool) (ip : String) (cc : ClusterConfig) (vmStr : String) :
    StartOutcome × List Event :=
  match (startHostIPRetry env).1 with
  | some re => (.err cfg.name "Error determining host IP" re.msg, [.determineHostIP])
  | none => withEvent .determineHostIP
      (stepProxyEnv cfg env b isNew needsCertsRenewal ip cc vmStr)

/-- VM IP discovery via the driver, fatal on failure. -/
def stepGetIP (cfg : StartConfig) (env : StartEnv) (b : Bundle)
    (isNew needsCertsRenewal : Bool) (cc : ClusterConfig) (vmStr : String) :
    StartOutcome × List Event :=
  match env.getIP with
  | .error e => (.err cfg.name "Error getting the IP" e, [.getIP])
  | .ok ip => withEvent .getIP
      (stepHostIP cfg env b isNew needsCertsRenewal ip cc vmStr)

/-- Optional nameserver injection, attempted only when the caller supplied a
nameserver, fatal on failure. -/
def stepNameServer (cfg : StartConfig) (env : StartEnv) (b : Bundle)
    (isNew needsCertsRenewal : Bool) (cc : ClusterConfig) (vmStr : String) :
    StartOutcome × List Event :=
  if cfg.nameServer = "" then stepGetIP cfg env b isNew needsCertsRenewal cc vmStr
  else
    match env.addNameServer with
    | .error e => (.err cfg.name "Failed to add nameserver to the VM" e, [.addNameServer])
    | .ok _ => withEvent .addNameServer (stepGetIP cfg env b isNew needsCertsRenewal cc vmStr)

/-- Certificate validity probe: an error with the Expired state flags the
renewal sub-workflow and continues; an error with any other state is fatal. -/
def stepCerts (cfg : StartConfig) (env : StartEnv) (b : Bundle) (isNew : Bool)
    (cc : ClusterConfig) (vmStr : String) : StartOutcome × List Event :=
  match env.certsCheck with
  | .otherErr e => (.err cfg.name "Failed to check certificate validity" e, [.checkCerts])
  | .expiredErr _ => withEvent .checkCerts (stepNameServer cfg env b isNew true cc vmStr)
  | .valid => withEvent .checkCerts (stepNameServer cfg env b isNew false cc vmStr)

/-- SSH reachability wait, fatal on failure. -/
def stepWaitSSH (cfg : StartConfig) (env : StartEnv) (b : Bundle) (isNew : Bool)
    (cc : ClusterConfig) (vmStr : String) : StartOutcome × List Event :=
  match env.waitSSH with
  | .error e => (.err cfg.name "Failed to connect to the CRC VM with SSH" e, [.waitForSSH])
  | .ok _ => withEvent .waitForSSH (stepCerts cfg env b isNew cc vmStr)

/-- The post-VM-start phase shared by both branches of `Start`: derive the
cluster configuration, defensively re-load the instance and its state, then
run the post-start configurator chain. -/
def startPostVM (cfg : StartConfig) (env : StartEnv) (b : Bundle) (isNew : Bool) :
    StartOutcome × List Event :=
  match getClusterConfig env.ambientProxy b with
  | .error e => (.err cfg.name "Cannot create cluster configuration" e, [])
  | .ok cc =>
  match env.loadHost2 with
  | .error e => (.err cfg.name ("Error loading " ++ cfg.name ++ " vm") e, [.loadMachine2])
  | .ok _ =>
  match env.getState2 with
  | .error e => (.err cfg.name "Error getting the state" e, [.loadMachine2, .getState2])
  | .ok st => withEvents [.loadMachine2, .getState2] (stepWaitSSH cfg env b isNew cc st.str)

/-- The creation branch of `Start` (instance absent): resolve the pull
secret, resolve the bundle metadata from the bundle path, validate the disk
image, and create the VM through the driver, each fatal on failure. -/
def startCreate (cfg : StartConfig) (env : StartEnv) : StartOutcome × List Event :=
  match env.getPullSecret with
  | .error e => (.err cfg.name "Failed to get pull secret" e, [.getPullSecret])
  | .ok _ =>
  match env.bundleFromPath with
  | .error e => (.err cfg.name "Error getting bundle metadata" e, [.getPullSecret, .getBundleInfo])
  | .ok b =>
  match env.diskSizeCheck with
  | .error e => (.err cfg.name "Invalid bundle disk image" e,
      [.getPullSecret, .getBundleInfo, .checkDiskSize])
  | .ok _ =>
  match env.createHost with
  | .error e => (.err cfg.name "Error creating machine" e,
      [.getPullSecret, .getBundleInfo, .checkDiskSize, .driverCreate])
  | .ok _ => withEvents [.getPullSecret, .getBundleInfo, .checkDiskSize, .driverCreate]
      (startPostVM cfg env b true)

/-- The existing-instance branch of `Start`: load the instance, resolve the
bundle metadata recorded by the driver, reject a bundle-name mismatch, then
short-circuit when the VM is already running, else start it through the
driver and persist the record. -/
def startExisting (cfg : StartConfig) (env : StartEnv) : StartOutcome × List Event :=
  match env.loadHost with
  | .error e => (.err cfg.name "Error loading machine" e, [.loadMachine])
  | .ok _ =>
  match getBundleMetadataFromDriver env.driverBundleName env.cachedBundle with
  | .error e => (.err cfg.name "Error loading bundle metadata" e, [.loadMachine, .getBundleName])
  | .ok (bn, b) =>
  if bn ≠ filepathBase cfg.bundlePath then
    (.err cfg.name "Invalid bundle"
      ("Bundle " ++ filepathBase cfg.bundlePath ++ " was requested, but the existing VM is using " ++ bn),
      [.loadMachine, .getBundleName])
  else
  match env.getState1 with
  | .error e => (.err cfg.name "Error getting the machine state" e,
      [.loadMachine, .getBundleName, .getState])
  | .ok vmState =>
  if IsRunning vmState then
    (.ok ⟨cfg.name, false, none, vmState.str⟩, [.loadMachine, .getBundleName, .getState])
  else
  match env.driverStart with
  | .error e => (.err cfg.name "Error starting stopped VM" e,
      [.loadMachine, .getBundleName, .getState, .driverStart])
  | .ok _ =>
  match env.saveMachine with
  | .error e => (.err cfg.name "Error saving state for VM" e,
      [.loadMachine, .getBundleName, .getState, .driverStart, .saveMachine])
  | .ok _ => withEvents [.loadMachine, .getBundleName, .getState, .driverStart, .saveMachine]
      (startPostVM cfg env b false)

/-- `Start` from machine.go.  After client initialization it queries
existence through `ExistsCheck`, discarding the error component of the
answer, and branches: an unrecorded (or unqueryable) instance goes down the
creation branch, a recorded one down the existing-instance branch. -/
def Start (cfg : StartConfig) (env : StartEnv) : StartOutcome × List Event :=
  match env.clientInit with
  | .error e => (.err cfg.name "Cannot initialize libmachine" e, [])
  | .ok _ =>
  if (ExistsCheck env.existsEnv).1 then startExisting cfg env
  else startCreate cfg env

/-- An ambient proxy configuration with no proxy URL set. -/
def noProxyAmbient : ProxyConfig := ⟨"", "", []⟩

/-- An ambient proxy configuration with an HTTP proxy URL set. -/
def httpProxyAmbient : ProxyConfig := ⟨"http://proxy.example.com:3128", "", []⟩

/-- A concrete bundle metadata fixture. -/
def testBundle : Bundle :=
  ⟨"crc.crcbundle", "crc.testing", "4.6.1", .ok "secretpw", "kubeconfig"⟩

/-- The cluster configuration derived from `testBundle` with no proxy set. -/
def testClusterConfig : ClusterConfig :=
  ⟨"kubeconfig", "secretpw", defaultWebConsoleURL, defaultAPIURL, noProxyAmbient⟩

/-- A concrete Start configuration whose bundle path has base name
`crc.crcbundle`. -/
def testStartConfig : StartConfig := ⟨"crc", "/tmp/crc.crcbundle", "", 4, 9216⟩

/-- An environment in which the instance is recorded with `crc.crcbundle`,
the VM is stopped, and every collaborator call succeeds. -/
def baseRunEnv : StartEnv where
  clientInit := .ok ()
  existsEnv := ⟨.ok (), .ok true⟩
  getPullSecret := .ok "pullsecret"
  bundleFromPath := .ok testBundle
  diskSizeCheck := .ok ()
  createHost := .ok ()
  loadHost := .ok ()
  driverBundleName := .ok "crc.crcbundle"
  cachedBundle := .ok testBundle
  getState1 := .ok VMState.Stopped
  driverStart := .ok ()
  saveMachine := .ok ()
  loadHost2 := .ok ()
  getState2 := .ok VMState.Running
  waitSSH := .ok ()
  certsCheck := .valid
  addNameServer := .ok ()
  getIP := .ok "192.168.130.11"
  hostIPAttempt := fun _ => .ok "192.168.130.1"
  ambientProxy := .ok noProxyAmbient
  dnsPostStart := .ok ()
  dnsLocal := .ok ()
  dnsPublic := .ok ()
  dnsHost := .ok ()
  updateSSHKey := .ok ()
  copyKubeconfigLocal := .ok ()
  copyKubeconfigVM := .ok ()
  regenerateCerts := .ok ()
  startKubelet := .ok ()
  addProxyCluster := .ok ()
  addProxyKubeletCrio := .ok ()
  restartCrio := .ok ()
  restartKubelet := .ok ()
  addPullSecret := .ok ()
  updateClusterID := .ok ()
  isActiveKubelet := .ok true
  waitCAFile := .ok ()
  deletePods := .ok ()
  approveCSR := .ok ()
  proxyPropagationAttempt := fun _ => .ok true

/-- `baseRunEnv` with the VM already reported Running by the driver. -/
def runningEnv : StartEnv := { baseRunEnv with getState1 := .ok VMState.Running }

/-- `baseRunEnv` with a different bundle name recorded by the driver. -/
def mismatchEnv : StartEnv := { baseRunEnv with driverBundleName := .ok "old.crcbundle" }

/-- `baseRunEnv` with a failing existence query and a failing driver
creation. -/
def existsErrEnv : StartEnv :=
  { baseRunEnv with
    existsEnv := ⟨.ok (), .error "store corrupted"⟩
    createHost := .error "no kvm" }

/-- `baseRunEnv` with a certificate probe reporting expired certificates. -/
def expiredCertsEnv : StartEnv :=
  { baseRunEnv with certsCheck := .expiredErr "x509 certificate has expired" }

/-- `baseRunEnv` with a failing in-VM public-names DNS check. -/
def publicDNSFailEnv : StartEnv :=
  { baseRunEnv with dnsPublic := .error "public dns unreachable" }

/-- A Delete environment whose driver-level removal fails. -/
def deleteFailEnv : DeleteEnv := ⟨.ok (), .ok (), .error "cannot undefine domain", .ok ()⟩

/-- A Status environment for a running VM whose operator-status query fails
and whose disk-usage query succeeds. -/
def statusFallbackEnv : StatusEnv :=
  ⟨.ok (), .ok true, .ok (), .ok VMState.Running, .ok "crc.crcbundle", .ok testBundle,
    .ok noProxyAmbient, .error "unable to reach the cluster", .ok (32, 12)⟩

/-- A retry action that is retriable on attempt 0 and fatal on every later
attempt. -/
def retryFatalExample : Nat → Option RetryErr := fun i =>
  if i = 0 then some (RetryErr.retriable "r0") else some (RetryErr.fatal "f1")

/-- The messages of `retryFatalExample`. -/
def retryFatalExampleMsg : Nat → String := fun i => if i = 0 then "r0" else "f1"

theorem retryAfterGo_attempts_le (a : Nat → Option RetryErr) (d : Nat) :
    ∀ r i s last, (retryAfterGo a d r i s last).2.1 ≤ i + r := by
  intro r
  induction r with
  | zero => intro i s last; simp [retryAfterGo]
  | succ r ih =>
    intro i s last
    simp only [retryAfterGo]
    cases h : a i with
    | none => simp
    | some e =>
      cases e with
      | fatal m => simp
      | retriable m =>
        have h2 := ih (i + 1) (s + d) (some (RetryErr.retriable m))
        simp only []
        omega

theorem retryAfterGo_sleep_le (a : Nat → Option RetryErr) (d : Nat) :
    ∀ r i s last, (retryAfterGo a d r i s last).2.2 ≤ s + r * d := by
  intro r
  induction r with
  | zero => intro i s last; simp [retryAfterGo]
  | succ r ih =>
    intro i s last
    simp only [retryAfterGo]
    cases h : a i with
    | none => simp; rw [Nat.succ_mul]; omega
    | some e =>
      cases e with
      | fatal m => simp; rw [Nat.succ_mul]; omega
      | retriable m =>
        have h2 := ih (i + 1) (s + d) (some (RetryErr.retriable m))
        rw [Nat.succ_mul]
        simp only []
        omega

theorem retryAfterGo_exhaust (a : Nat → Option RetryErr) (d : Nat) (m : Nat → String) :
    ∀ r i s, 1 ≤ i →
    (∀ j, i ≤ j → j < i + r → a j = some (RetryErr.retriable (m j))) →
    retryAfterGo a d r i s (some (RetryErr.retriable (m (i - 1)))) =
      (some (RetryErr.retriable (m (i + r - 1))), i + r, s + r * d) := by
  intro r
  induction r with
  | zero => intro i s hi h; simp [retryAfterGo]
  | succ r ih =>
    intro i s hi h
    simp only [retryAfterGo]
    rw [h i (Nat.le_refl i) (by omega)]
    have h2 := ih (i + 1) (s + d) (by omega) (fun j hj1 hj2 => h j (by omega) (by omega))
    rw [(by omega : i + 1 - 1 = i)] at h2
    rw [(by omega : i + (r + 1) - 1 = i + 1 + r - 1),
        (by omega : i + (r + 1) = i + 1 + r),
        (by rw [Nat.succ_mul]; omega : s + (r + 1) * d = s + d + r * d)]
    exact h2

theorem retryAfterGo_fatal (a : Nat → Option RetryErr) (d : Nat) (msg : String) (m : Nat → String) :
    ∀ r i s last k, i ≤ k → k < i + r → a k = some (RetryErr.fatal msg) →
    (∀ j, i ≤ j → j < k → a j = some (RetryErr.retriable (m j))) →
    retryAfterGo a d r i s last = (some (RetryErr.fatal msg), k + 1, s + (k + 1 - i) * d) := by
  intro r
  induction r with
  | zero => intro i s last k h1 h2 _ _; omega
  | succ r ih =>
    intro i s last k h1 h2 h3 h4
    simp only [retryAfterGo]
    rcases Nat.eq_or_lt_of_le h1 with heq | hlt
    · subst heq
      rw [h3]
      rw [(by omega : i + 1 - i = 1), Nat.one_mul]
    · rw [h4 i (Nat.le_refl i) hlt]
      rw [(by omega : k + 1 - i = (k + 1 - (i + 1)) + 1), Nat.succ_mul,
          (by omega : s + ((k + 1 - (i + 1)) * d + d) = (s + d) + (k + 1 - (i + 1)) * d)]
      exact ih (i + 1) (s + d) (some (RetryErr.retriable (m i))) k (by omega) (by omega) h3
        (fun j hj1 hj2 => h4 j (by omega) hj2)

theorem RetryAfter_attempts_le (n : Nat) (a : Nat → Option RetryErr) (d : Nat) :
    (RetryAfter n a d).2.1 ≤ n := by
  cases n with
  | zero => simp [RetryAfter]
  | succ r =>
    simp only [RetryAfter]
    cases h : a 0 with
    | none => simp
    | some e =>
      cases e with
      | fatal m => simp
      | retriable m =>
        have h2 := retryAfterGo_attempts_le a d r 1 0 (some (RetryErr.retriable m))
        simp only []
        omega

theorem RetryAfter_sleep_le (n : Nat) (a : Nat → Option RetryErr) (d : Nat) :
    (RetryAfter n a d).2.2 ≤ (n - 1) * d := by
  cases n with
  | zero => simp [RetryAfter]
  | succ r =>
    simp only [RetryAfter, Nat.succ_sub_one]
    cases h : a 0 with
    | none => simp
    | some e =>
      cases e with
      | fatal m => simp
      | retriable m =>
        have h2 := retryAfterGo_sleep_le a d r 1 0 (some (RetryErr.retriable m))
        simp only []
        omega

theorem RetryAfter_exhaust (n : Nat) (a : Nat → Option RetryErr) (d : Nat) (m : Nat → String)
    (hn : 0 < n) (h : ∀ i, i < n → a i = some (RetryErr.retriable (m i))) :
    RetryAfter n a d = (some (RetryErr.retriable (m (n - 1))), n, (n - 1) * d) := by
  cases n with
  | zero => omega
  | succ r =>
    simp only [RetryAfter, Nat.succ_sub_one]
    rw [h 0 (by omega)]
    have h2 := retryAfterGo_exhaust a d m r 1 0 (by omega) (fun j hj1 hj2 => h j (by omega))
    rw [(by omega : (1 : Nat) - 1 = 0)] at h2
    rw [(by omega : (1 : Nat) + r - 1 = r), (by omega : 1 + r = r + 1), Nat.zero_add] at h2
    exact h2

theorem RetryAfter_first_fatal (n : Nat) (a : Nat → Option RetryErr) (d : Nat)
    (msg : String) (m : Nat → String) (k : Nat) (hk : k < n)
    (hfatal : a k = some (RetryErr.fatal msg))
    (hbefore : ∀ i, i < k → a i = some (RetryErr.retriable (m i))) :
    RetryAfter n a d = (some (RetryErr.fatal msg), k + 1, k * d) := by
  cases n with
  | zero => omega
  | succ r =>
    by_cases hk0 : k = 0
    · subst hk0
      simp only [RetryAfter]
      rw [hfatal, Nat.zero_mul]
    · simp only [RetryAfter]
      rw [hbefore 0 (by omega)]
      have h2 := retryAfterGo_fatal a d msg m r 1 0 (some (RetryErr.retriable (m 0))) k
        (by omega) (by omega) hfatal (fun j hj1 hj2 => hbefore j hj2)
      rw [(by omega : k + 1 - 1 = k), Nat.zero_add] at h2
      exact h2

/-- Claim C3: `retryAfter(n, action, d)` invokes the action at most `n`
times; the total sleep is at most `(n-1)*d`, and exactly `(n-1)*d` when every
attempt returns a retriable-tagged error, in which case the last retriable
error is returned after exactly `n` attempts; the first non-retriable error
is returned immediately, after `k+1` attempts and `k*d` sleep when it occurs
on attempt `k`.  Start uses this primitive with 30 attempts and a 2-second
interval for host-IP discovery, and `waitForProxyPropagation` uses it with 60
attempts and a 2-second interval. -/
theorem retryAfter_contract (n d k : Nat) (a : Nat → Option RetryErr) (m : Nat → String) :
    ((RetryAfter n a d).2.1 ≤ n) ∧
    ((RetryAfter n a d).2.2 ≤ (n - 1) * d) ∧
    (0 < n → (∀ i, i < n → a i = some (RetryErr.retriable (m i))) →
      RetryAfter n a d = (some (RetryErr.retriable (m (n - 1))), n, (n - 1) * d)) ∧
    (k < n → a k = some (RetryErr.fatal (m k)) →
      (∀ i, i < k → a i = some (RetryErr.retriable (m i))) →
      RetryAfter n a d = (some (RetryErr.fatal (m k)), k + 1, k * d)) ∧
    (∀ env : StartEnv, startHostIPRetry env = RetryAfter 30 (hostIPAction env) 2) ∧
    (∀ env : StartEnv, waitForProxyPropagation env = RetryAfter 60 (proxyCheckAction env) 2) :=
  ⟨RetryAfter_attempts_le n a d, RetryAfter_sleep_le n a d,
    fun hn h => RetryAfter_exhaust n a d m hn h,
    fun hk hf hb => RetryAfter_first_fatal n a d (m k) m k hk hf hb,
    fun _ => rfl, fun _ => rfl⟩

/-- Concrete run of the claim-C3 contract: a retriable first attempt followed
by a fatal second attempt stops after 2 of the 3 allowed attempts with a
single interval slept, and the attempt/sleep bounds hold. -/
theorem retryAfter_contract_witness :
    (RetryAfter 3 retryFatalExample 2).2.1 ≤ 3 ∧
    (RetryAfter 3 retryFatalExample 2).2.2 ≤ 4 ∧
    RetryAfter 3 retryFatalExample 2 = (some (RetryErr.fatal "f1"), 2, 2) := by
  have h := retryAfter_contract 3 2 1 retryFatalExample retryFatalExampleMsg
  refine ⟨h.1, h.2.1, ?_⟩
  have h4 := h.2.2.2.1 (by decide) (by decide) (by decide)
  simpa [retryFatalExampleMsg] using h4

/-- Claim C7: after `getProxyConfig(baseDomain)` resolves the ambient proxy
configuration, if any proxy URL is set the returned configuration has
`.{baseDomain}` in its no-proxy list (and is enabled); if no proxy URL is set
the returned configuration is disabled regardless of its no-proxy list. -/
theorem getProxyConfig_no_proxy_invariant (p : ProxyConfig) (domain : String) :
    ((p.httpProxy ≠ "" ∨ p.httpsProxy ≠ "") →
      getProxyConfig (Except.ok p) domain = Except.ok (p.AddNoProxy ("." ++ domain)) ∧
      ("." ++ domain) ∈ (p.AddNoProxy ("." ++ domain)).noProxy ∧
      (p.AddNoProxy ("." ++ domain)).IsEnabled = true) ∧
    ((p.httpProxy = "" ∧ p.httpsProxy = "") →
      getProxyConfig (Except.ok p) domain = Except.ok p ∧ p.IsEnabled = false) := by
  constructor
  · intro h
    have hen : p.IsEnabled = true := by
      simp only [ProxyConfig.IsEnabled, Bool.or_eq_true, bne_iff_ne]
      exact h
    refine ⟨by simp [getProxyConfig, hen], by simp [ProxyConfig.AddNoProxy], ?_⟩
    simpa only [ProxyConfig.AddNoProxy, ProxyConfig.IsEnabled] using hen
  · intro h
    have hen : p.IsEnabled = false := by
      simp [ProxyConfig.IsEnabled, h.1, h.2]
    exact ⟨by simp [getProxyConfig, hen], hen⟩

/-- Concrete run of claim C7: with an HTTP proxy URL set, the resolved
configuration contains `.crc.testing` in its no-proxy list. -/
theorem getProxyConfig_no_proxy_invariant_witness :
    getProxyConfig (Except.ok httpProxyAmbient) "crc.testing" =
      Except.ok (httpProxyAmbient.AddNoProxy ("." ++ "crc.testing")) ∧
    ("." ++ "crc.testing") ∈ (httpProxyAmbient.AddNoProxy ("." ++ "crc.testing")).noProxy := by
  have h := (getProxyConfig_no_proxy_invariant httpProxyAmbient "crc.testing").1
    (Or.inl (by decide))
  exact ⟨h.1, h.2.1⟩

/-- Claim C6: Delete removes the persisted instance record only after the
driver-level removal has succeeded: when `Driver.Remove` fails, Delete
returns that failure and the record-removal call never happens. -/
theorem delete_keeps_record_on_driver_failure (name : String) (env : DeleteEnv) (e : String)
    (h1 : env.clientInit = Except.ok ()) (h2 : env.load = Except.ok ())
    (h3 : env.driverRemove = Except.error e) :
    Delete name env =
      (DeleteOutcome.err name "Driver cannot remove machine" e, [Event.loadMachine, Event.driverRemove]) ∧
    Event.storeRemove ∉ (Delete name env).2 := by
  have heq : Delete name env =
      (DeleteOutcome.err name "Driver cannot remove machine" e,
        [Event.loadMachine, Event.driverRemove]) := by
    simp [Delete, h1, h2, h3]
  refine ⟨heq, ?_⟩
  rw [heq]
  simp

/-- Concrete run of claim C6: a failing driver removal leaves the record in
place. -/
theorem delete_keeps_record_on_driver_failure_witness :
    Delete "crc" deleteFailEnv =
      (DeleteOutcome.err "crc" "Driver cannot remove machine" "cannot undefine domain",
        [Event.loadMachine, Event.driverRemove]) ∧
    Event.storeRemove ∉ (Delete "crc" deleteFailEnv).2 :=
  delete_keeps_record_on_driver_failure "crc" deleteFailEnv "cannot undefine domain" rfl rfl rfl

/-- Claim C5: for a recorded instance whose VM state is Running, a failing
operator-status query still yields a successful Status result with
OpenshiftStatus set to Not Reachable, while a failing root-disk-usage query
makes Status fail. -/
theorem status_operator_query_fallback (name : String) (env : StatusEnv)
    (h1 : env.clientInit = Except.ok ()) (h2 : env.storeExists = Except.ok true)
    (h3 : env.load = Except.ok ()) (h4 : env.getState = Except.ok VMState.Running)
    (h5 : env.driverBundleName = Except.ok "crc.crcbundle")
    (h6 : env.cachedBundle = Except.ok testBundle)
    (h7 : env.ambientProxy = Except.ok noProxyAmbient) :
    (∀ e ds du, env.operatorsQuery = Except.error e →
      env.rootPartitionUsage = Except.ok (ds, du) →
      Status name env = StatusOutcome.ok ⟨name, "Running", "Not Reachable", du, ds, true⟩) ∧
    (∀ e2, env.rootPartitionUsage = Except.error e2 →
      Status name env = StatusOutcome.err name "Cannot get root partition usage" e2) := by
  constructor
  · intro e ds du hq hr
    simp [Status, h1, h2, h3, h4, h5, h6, h7, hq, hr, IsRunning, getBundleMetadataFromDriver,
      getProxyConfig, testBundle, noProxyAmbient, VMState.str, ProxyConfig.IsEnabled]
  · intro e2 hr
    simp [Status, h1, h2, h3, h4, h5, h6, h7, hr, IsRunning, getBundleMetadataFromDriver,
      getProxyConfig, testBundle, noProxyAmbient, VMState.str, ProxyConfig.IsEnabled]

/-- Concrete run of claim C5: the operator-status query fails, the
disk-usage query succeeds, and Status reports success with Not Reachable. -/
theorem status_operator_query_fallback_witness :
    Status "crc" statusFallbackEnv =
      StatusOutcome.ok ⟨"crc", "Running", "Not Reachable", 12, 32, true⟩ :=
  (status_operator_query_fallback "crc" statusFallbackEnv rfl rfl rfl rfl rfl rfl rfl).1
    "unable to reach the cluster" 32 12 rfl rfl

/-- Claim C1: Start on a recorded instance whose driver-reported state is
Running short-circuits: it returns a success result carrying the current
state and performs neither `Driver.Start`, nor a record save, nor any
post-start step.  The run is a function of the environment alone, so a
second Start under the same driver-reported state reproduces exactly the
same result and (mutation-free) trace. -/
theorem start_running_short_circuit (cfg : StartConfig) (env : StartEnv) (bn : String) (b : Bundle)
    (h0 : env.clientInit = Except.ok ())
    (h1 : (ExistsCheck env.existsEnv).1 = true)
    (h2 : env.loadHost = Except.ok ())
    (h3 : getBundleMetadataFromDriver env.driverBundleName env.cachedBundle = Except.ok (bn, b))
    (h4 : bn = filepathBase cfg.bundlePath)
    (h5 : env.getState1 = Except.ok VMState.Running) :
    Start cfg env = (StartOutcome.ok ⟨cfg.name, false, none, "Running"⟩,
      [Event.loadMachine, Event.getBundleName, Event.getState]) ∧
    Event.driverStart ∉ (Start cfg env).2 ∧
    Event.saveMachine ∉ (Start cfg env).2 ∧
    Event.driverCreate ∉ (Start cfg env).2 ∧
    Event.waitForSSH ∉ (Start cfg env).2 := by
  subst h4
  have heq : Start cfg env = (StartOutcome.ok ⟨cfg.name, false, none, "Running"⟩,
      [Event.loadMachine, Event.getBundleName, Event.getState]) := by
    simp [Start, startExisting, h0, h1, h2, h3, h5, IsRunning, VMState.str]
  refine ⟨heq, ?_, ?_, ?_, ?_⟩ <;> rw [heq] <;> simp

/-- Concrete run of claim C1: a recorded, running instance makes Start
return success with the Running state after only read-only driver calls. -/
theorem start_running_short_circuit_witness :
    Start testStartConfig runningEnv =
      (StartOutcome.ok ⟨"crc", false, none, "Running"⟩,
        [Event.loadMachine, Event.getBundleName, Event.getState]) ∧
    Event.driverStart ∉ (Start testStartConfig runningEnv).2 ∧
    Event.saveMachine ∉ (Start testStartConfig runningEnv).2 := by
  have h := start_running_short_circuit testStartConfig runningEnv "crc.crcbundle" testBundle
    rfl rfl rfl rfl (by decide) rfl
  exact ⟨h.1, h.2.1, h.2.2.1⟩

/-- Claim C2: starting a recorded instance with a bundle path whose base
name differs from the bundle the instance was created from fails with the
Invalid bundle error, and no driver mutation (create, start, save) is
performed. -/
theorem start_bundle_mismatch (cfg : StartConfig) (env : StartEnv) (bn : String) (b : Bundle)
    (h0 : env.clientInit = Except.ok ())
    (h1 : (ExistsCheck env.existsEnv).1 = true)
    (h2 : env.loadHost = Except.ok ())
    (h3 : getBundleMetadataFromDriver env.driverBundleName env.cachedBundle = Except.ok (bn, b))
    (h4 : bn ≠ filepathBase cfg.bundlePath) :
    Start cfg env = (StartOutcome.err cfg.name "Invalid bundle"
        ("Bundle " ++ filepathBase cfg.bundlePath ++ " was requested, but the existing VM is using " ++ bn),
      [Event.loadMachine, Event.getBundleName]) ∧
    Event.driverStart ∉ (Start cfg env).2 ∧
    Event.saveMachine ∉ (Start cfg env).2 ∧
    Event.driverCreate ∉ (Start cfg env).2 := by
  have heq : Start cfg env = (StartOutcome.err cfg.name "Invalid bundle"
      ("Bundle " ++ filepathBase cfg.bundlePath ++ " was requested, but the existing VM is using " ++ bn),
      [Event.loadMachine, Event.getBundleName]) := by
    simp [Start, startExisting, h0, h1, h2, h3, h4]
  refine ⟨heq, ?_, ?_, ?_⟩ <;> rw [heq] <;> simp

/-- Concrete run of claim C2: requesting bundle `crc.crcbundle` against an
instance recorded with `old.crcbundle` fails without driver mutation. -/
theorem start_bundle_mismatch_witness :
    Start testStartConfig mismatchEnv = (StartOutcome.err "crc" "Invalid bundle"
        ("Bundle " ++ filepathBase testStartConfig.bundlePath ++
          " was requested, but the existing VM is using " ++ "old.crcbundle"),
      [Event.loadMachine, Event.getBundleName]) ∧
    Event.driverStart ∉ (Start testStartConfig mismatchEnv).2 ∧
    Event.saveMachine ∉ (Start testStartConfig mismatchEnv).2 := by
  have h := start_bundle_mismatch testStartConfig mismatchEnv "old.crcbundle" testBundle
    rfl rfl rfl rfl (by decide)
  exact ⟨h.1, h.2.1, h.2.2.1⟩

/-- Claim C10: the error of the existence check in Start is discarded: when
`Exists` fails (and therefore reports false), Start does not fail but
proceeds down the creation branch as if the instance were absent, attempting
to create a new VM. -/
theorem start_exists_error_ignored (cfg : StartConfig) (env : StartEnv) (e : String)
    (h0 : env.clientInit = Except.ok ())
    (h1 : env.existsEnv.clientInit = Except.ok ())
    (h2 : env.existsEnv.storeExists = Except.error e) :
    ExistsCheck env.existsEnv = (false, some ("Error checking if the host exists: " ++ e)) ∧
    Start cfg env = startCreate cfg env ∧
    (∀ ps b ce, env.getPullSecret = Except.ok ps → env.bundleFromPath = Except.ok b →
      env.diskSizeCheck = Except.ok () → env.createHost = Except.error ce →
      Start cfg env = (StartOutcome.err cfg.name "Error creating machine" ce,
        [Event.getPullSecret, Event.getBundleInfo, Event.checkDiskSize, Event.driverCreate])) := by
  have hex : ExistsCheck env.existsEnv =
      (false, some ("Error checking if the host exists: " ++ e)) := by
    simp [ExistsCheck, h1, h2]
  refine ⟨hex, ?_, ?_⟩
  · simp [Start, h0, hex]
  · intro ps b ce g1 g2 g3 g4
    simp [Start, startCreate, h0, hex, g1, g2, g3, g4]

/-- Concrete run of claim C10: a corrupted existence query sends Start into
the creation branch, which then reaches the driver-creation call. -/
theorem start_exists_error_ignored_witness :
    ExistsCheck existsErrEnv.existsEnv =
      (false, some ("Error checking if the host exists: " ++ "store corrupted")) ∧
    Start testStartConfig existsErrEnv =
      (StartOutcome.err "crc" "Error creating machine" "no kvm",
        [Event.getPullSecret, Event.getBundleInfo, Event.checkDiskSize, Event.driverCreate]) := by
  have h := start_exists_error_ignored testStartConfig existsErrEnv "store corrupted" rfl rfl rfl
  exact ⟨h.1, h.2.2 "pullsecret" testBundle "no kvm" rfl rfl rfl rfl⟩

/-- Claim C9: with a proxy enabled, `configProxyForCluster` restarts the
crio and kubelet services after the proxy-settings pushes, regardless of
whether those pushes succeeded or failed: both restart events occur, at the
end of the trace, and nowhere before the pushes. -/
theorem configProxy_restarts_services (env : StartEnv) (proxy : ProxyConfig) (ip : String)
    (hp : proxy.IsEnabled = true) :
    Event.restartCrio ∈ (configProxyForCluster env proxy ip).2 ∧
    Event.restartKubelet ∈ (configProxyForCluster env proxy ip).2 ∧
    (∃ t, (configProxyForCluster env proxy ip).2 = t ++ [Event.restartCrio, Event.restartKubelet] ∧
      Event.restartCrio ∉ t ∧ Event.restartKubelet ∉ t ∧ Event.addProxyToCluster ∈ t) := by
  rcases hA : env.addProxyCluster with eA | uA
  · have ht : (configProxyForCluster env proxy ip).2 =
        [Event.addProxyToCluster] ++ [Event.restartCrio, Event.restartKubelet] := by
      simp [configProxyForCluster, hp, hA]
    refine ⟨?_, ?_, ⟨[Event.addProxyToCluster], ht, by decide, by decide, by decide⟩⟩ <;>
      rw [ht] <;> simp
  · rcases hB : env.addProxyKubeletCrio with eB | uB
    · have ht : (configProxyForCluster env proxy ip).2 =
          [Event.addProxyToCluster, Event.addProxyToKubeletCrio] ++
            [Event.restartCrio, Event.restartKubelet] := by
        simp [configProxyForCluster, hp, hA, hB]
      refine ⟨?_, ?_, ⟨[Event.addProxyToCluster, Event.addProxyToKubeletCrio], ht,
        by decide, by decide, by decide⟩⟩ <;> rw [ht] <;> simp
    · have ht : (configProxyForCluster env proxy ip).2 =
          [Event.addProxyToCluster, Event.addProxyToKubeletCrio] ++
            [Event.restartCrio, Event.restartKubelet] := by
        simp [configProxyForCluster, hp, hA, hB]
      refine ⟨?_, ?_, ⟨[Event.addProxyToCluster, Event.addProxyToKubeletCrio], ht,
        by decide, by decide, by decide⟩⟩ <;> rw [ht] <;> simp

/-- Concrete run of claim C9: with an HTTP proxy enabled, both service
restarts happen after the pushes. -/
theorem configProxy_restarts_services_witness :
    Event.restartCrio ∈ (configProxyForCluster baseRunEnv httpProxyAmbient "192.168.130.11").2 ∧
    Event.restartKubelet ∈ (configProxyForCluster baseRunEnv httpProxyAmbient "192.168.130.11").2 := by
  have h := configProxy_restarts_services baseRunEnv httpProxyAmbient "192.168.130.11" (by decide)
  exact ⟨h.1, h.2.1⟩

/-- Claim C4: when the certificate validity probe returns an error together
with the Expired state, Start does not abort: it flags the renewal
sub-workflow and runs the certificate-renewal procedure before starting the
kubelet service, failing with the renewal-specific fatal message when the
renewal fails; an error with any other state makes Start fail immediately. -/
theorem start_cert_expiry_handling (env : StartEnv)
    (h0 : env.clientInit = Except.ok ())
    (h1 : (ExistsCheck env.existsEnv).1 = true)
    (h2 : env.loadHost = Except.ok ())
    (h3 : env.driverBundleName = Except.ok "crc.crcbundle")
    (h4 : env.cachedBundle = Except.ok testBundle)
    (h5 : env.getState1 = Except.ok VMState.Stopped)
    (h6 : env.driverStart = Except.ok ())
    (h7 : env.saveMachine = Except.ok ())
    (h8 : env.ambientProxy = Except.ok noProxyAmbient)
    (h9 : env.loadHost2 = Except.ok ())
    (h10 : env.getState2 = Except.ok VMState.Running)
    (h11 : env.waitSSH = Except.ok ()) :
    (∀ e, env.certsCheck = CertCheckResult.otherErr e →
      Start testStartConfig env =
        (StartOutcome.err "crc" "Failed to check certificate validity" e,
         [Event.loadMachine, Event.getBundleName, Event.getState, Event.driverStart,
          Event.saveMachine, Event.loadMachine2, Event.getState2, Event.waitForSSH,
          Event.checkCerts])) ∧
    (∀ e re, env.certsCheck = CertCheckResult.expiredErr e →
      env.getIP = Except.ok "192.168.130.11" →
      env.hostIPAttempt = (fun _ => Except.ok "192.168.130.1") →
      env.dnsPostStart = Except.ok () → env.dnsLocal = Except.ok () →
      env.dnsPublic = Except.ok () → env.dnsHost = Except.ok () →
      env.regenerateCerts = Except.error re →
      Start testStartConfig env = (StartOutcome.err "crc"
          "Failed to renew TLS certificates: please check if a newer CodeReady Containers release is available" re,
        [Event.loadMachine, Event.getBundleName, Event.getState, Event.driverStart,
         Event.saveMachine, Event.loadMachine2, Event.getState2, Event.waitForSSH,
         Event.checkCerts, Event.getIP, Event.determineHostIP, Event.applyProxyEnv,
         Event.dnsPostStart, Event.dnsCheckInternal, Event.dnsCheckPublic, Event.dnsCheckHost,
         Event.regenerateCerts]) ∧
      Event.startKubelet ∉ (Start testStartConfig env).2) ∧
    (∀ e, env.certsCheck = CertCheckResult.expiredErr e →
      env.getIP = Except.ok "192.168.130.11" →
      env.hostIPAttempt = (fun _ => Except.ok "192.168.130.1") →
      env.dnsPostStart = Except.ok () → env.dnsLocal = Except.ok () →
      env.dnsPublic = Except.ok () → env.dnsHost = Except.ok () →
      env.regenerateCerts = Except.ok () → env.startKubelet = Except.ok () →
      env.isActiveKubelet = Except.ok true → env.waitCAFile = Except.ok () →
      env.deletePods = Except.ok () → env.approveCSR = Except.ok () →
      Start testStartConfig env =
        (StartOutcome.ok ⟨"crc", true, some testClusterConfig, "Running"⟩,
         [Event.loadMachine, Event.getBundleName, Event.getState, Event.driverStart,
          Event.saveMachine, Event.loadMachine2, Event.getState2, Event.waitForSSH,
          Event.checkCerts, Event.getIP, Event.determineHostIP, Event.applyProxyEnv,
          Event.dnsPostStart, Event.dnsCheckInternal, Event.dnsCheckPublic, Event.dnsCheckHost,
          Event.regenerateCerts, Event.startKubelet, Event.isActiveKubelet, Event.waitCAFile,
          Event.deleteAPIServerPods, Event.sleepSettle, Event.approveCSR])) := by
  have hbase : filepathBase "/tmp/crc.crcbundle" = "crc.crcbundle" := by decide
  refine ⟨?_, ?_, ?_⟩
  · intro e hc
    simp [Start, startExisting, startPostVM, stepWaitSSH, stepCerts, withEvent, withEvents,
      getBundleMetadataFromDriver, getClusterConfig, getProxyConfig, ProxyConfig.IsEnabled,
      IsRunning, VMState.str, testStartConfig, testBundle, noProxyAmbient, hbase,
      h0, h1, h2, h3, h4, h5, h6, h7, h8, h9, h10, h11, hc]
  · intro e re hc g1 g2 g3 g4 g5 g6 g7
    have hretry : startHostIPRetry env = (none, 1, 0) := by
      unfold startHostIPRetry hostIPAction
      simp only [g2]
      rfl
    have heq : Start testStartConfig env = (StartOutcome.err "crc"
        "Failed to renew TLS certificates: please check if a newer CodeReady Containers release is available" re,
        [Event.loadMachine, Event.getBundleName, Event.getState, Event.driverStart,
         Event.saveMachine, Event.loadMachine2, Event.getState2, Event.waitForSSH,
         Event.checkCerts, Event.getIP, Event.determineHostIP, Event.applyProxyEnv,
         Event.dnsPostStart, Event.dnsCheckInternal, Event.dnsCheckPublic, Event.dnsCheckHost,
         Event.regenerateCerts]) := by
      simp [Start, startExisting, startPostVM, stepWaitSSH, stepCerts, stepNameServer, stepGetIP,
        stepHostIP, stepProxyEnv, stepDNSPostStart, stepDNSInternal, stepDNSPublic, stepDNSHost,
        stepFirstBoot, stepRenew, withEvent, withEvents,
        getBundleMetadataFromDriver, getClusterConfig, getProxyConfig, ProxyConfig.IsEnabled,
        IsRunning, VMState.str, testStartConfig, testBundle, noProxyAmbient, hbase, hretry,
        h0, h1, h2, h3, h4, h5, h6, h7, h8, h9, h10, h11, hc, g1, g3, g4, g5, g6, g7]
    refine ⟨heq, ?_⟩
    rw [heq]
    simp
  · intro e hc g1 g2 g3 g4 g5 g6 g7 g8 g9 g10 g11 g12
    have hretry : startHostIPRetry env = (none, 1, 0) := by
      unfold startHostIPRetry hostIPAction
      simp only [g2]
      rfl
    simp [Start, startExisting, startPostVM, stepWaitSSH, stepCerts, stepNameServer, stepGetIP,
      stepHostIP, stepProxyEnv, stepDNSPostStart, stepDNSInternal, stepDNSPublic, stepDNSHost,
      stepFirstBoot, stepRenew, stepStartKubelet, stepConfigure, stepKubeletActive, stepApprove,
      stepProxyWait, withEvent, withEvents,
      getBundleMetadataFromDriver, getClusterConfig, getProxyConfig, ProxyConfig.IsEnabled,
      IsRunning, VMState.str, testStartConfig, testBundle, noProxyAmbient, testClusterConfig,
      hbase, hretry,
      h0, h1, h2, h3, h4, h5, h6, h7, h8, h9, h10, h11, hc,
      g1, g3, g4, g5, g6, g7, g8, g9, g10, g11, g12]

/-- Concrete run of claim C4: an Expired probe answer leads to a successful
Start whose trace renews the certificates right before starting kubelet. -/
theorem start_cert_expiry_handling_witness :
    Start testStartConfig expiredCertsEnv =
      (StartOutcome.ok ⟨"crc", true, some testClusterConfig, "Running"⟩,
       [Event.loadMachine, Event.getBundleName, Event.getState, Event.driverStart,
        Event.saveMachine, Event.loadMachine2, Event.getState2, Event.waitForSSH,
        Event.checkCerts, Event.getIP, Event.determineHostIP, Event.applyProxyEnv,
        Event.dnsPostStart, Event.dnsCheckInternal, Event.dnsCheckPublic, Event.dnsCheckHost,
        Event.regenerateCerts, Event.startKubelet, Event.isActiveKubelet, Event.waitCAFile,
        Event.deleteAPIServerPods, Event.sleepSettle, Event.approveCSR]) :=
  (start_cert_expiry_handling expiredCertsEnv rfl rfl rfl rfl rfl rfl rfl rfl rfl rfl rfl
    rfl).2.2 "x509 certificate has expired" rfl rfl rfl rfl rfl rfl rfl rfl rfl rfl rfl rfl rfl

/-- Claim C8: during the DNS bring-up of Start, a failing in-VM
internal-names check and a failing host-side internal-names check are fatal,
while a failing in-VM public-names check is only logged and Start continues
(here all the way to success). -/
theorem start_dns_failure_severity (env : StartEnv)
    (h0 : env.clientInit = Except.ok ())
    (h1 : (ExistsCheck env.existsEnv).1 = true)
    (h2 : env.loadHost = Except.ok ())
    (h3 : env.driverBundleName = Except.ok "crc.crcbundle")
    (h4 : env.cachedBundle = Except.ok testBundle)
    (h5 : env.getState1 = Except.ok VMState.Stopped)
    (h6 : env.driverStart = Except.ok ())
    (h7 : env.saveMachine = Except.ok ())
    (h8 : env.ambientProxy = Except.ok noProxyAmbient)
    (h9 : env.loadHost2 = Except.ok ())
    (h10 : env.getState2 = Except.ok VMState.Running)
    (h11 : env.waitSSH = Except.ok ())
    (hc : env.certsCheck = CertCheckResult.valid)
    (g1 : env.getIP = Except.ok "192.168.130.11")
    (g2 : env.hostIPAttempt = (fun _ => Except.ok "192.168.130.1"))
    (g3 : env.dnsPostStart = Except.ok ()) :
    (∀ e, env.dnsLocal = Except.error e →
      Start testStartConfig env = (StartOutcome.err "crc" "Failed internal DNS query" e,
        [Event.loadMachine, Event.getBundleName, Event.getState, Event.driverStart,
         Event.saveMachine, Event.loadMachine2, Event.getState2, Event.waitForSSH,
         Event.checkCerts, Event.getIP, Event.determineHostIP, Event.applyProxyEnv,
         Event.dnsPostStart, Event.dnsCheckInternal])) ∧
    (∀ ep eh, env.dnsLocal = Except.ok () → env.dnsPublic = Except.error ep →
      env.dnsHost = Except.error eh →
      Start testStartConfig env = (StartOutcome.err "crc" "Failed to query DNS from host" eh,
        [Event.loadMachine, Event.getBundleName, Event.getState, Event.driverStart,
         Event.saveMachine, Event.loadMachine2, Event.getState2, Event.waitForSSH,
         Event.checkCerts, Event.getIP, Event.determineHostIP, Event.applyProxyEnv,
         Event.dnsPostStart, Event.dnsCheckInternal, Event.dnsCheckPublic, Event.dnsCheckHost])) ∧
    (∀ ep, env.dnsLocal = Except.ok () → env.dnsPublic = Except.error ep →
      env.dnsHost = Except.ok () →
      env.startKubelet = Except.ok () → env.isActiveKubelet = Except.ok true →
      env.waitCAFile = Except.ok () → env.deletePods = Except.ok () →
      env.approveCSR = Except.ok () →
      Start testStartConfig env =
        (StartOutcome.ok ⟨"crc", true, some testClusterConfig, "Running"⟩,
         [Event.loadMachine, Event.getBundleName, Event.getState, Event.driverStart,
          Event.saveMachine, Event.loadMachine2, Event.getState2, Event.waitForSSH,
          Event.checkCerts, Event.getIP, Event.determineHostIP, Event.applyProxyEnv,
          Event.dnsPostStart, Event.dnsCheckInternal, Event.dnsCheckPublic, Event.dnsCheckHost,
          Event.startKubelet, Event.isActiveKubelet, Event.waitCAFile,
          Event.deleteAPIServerPods, Event.sleepSettle, Event.approveCSR])) := by
  have hbase : filepathBase "/tmp/crc.crcbundle" = "crc.crcbundle" := by decide
  have hretry : startHostIPRetry env = (none, 1, 0) := by
    unfold startHostIPRetry hostIPAction
    simp only [g2]
    rfl
  refine ⟨?_, ?_, ?_⟩
  · intro e d1
    simp [Start, startExisting, startPostVM, stepWaitSSH, stepCerts, stepNameServer, stepGetIP,
      stepHostIP, stepProxyEnv, stepDNSPostStart, stepDNSInternal, withEvent, withEvents,
      getBundleMetadataFromDriver, getClusterConfig, getProxyConfig, ProxyConfig.IsEnabled,
      IsRunning, VMState.str, testStartConfig, testBundle, noProxyAmbient, hbase, hretry,
      h0, h1, h2, h3, h4, h5, h6, h7, h8, h9, h10, h11, hc, g1, g3, d1]
  · intro ep eh d1 d2 d3
    simp [Start, startExisting, startPostVM, stepWaitSSH, stepCerts, stepNameServer, stepGetIP,
      stepHostIP, stepProxyEnv, stepDNSPostStart, stepDNSInternal, stepDNSPublic, stepDNSHost,
      withEvent, withEvents,
      getBundleMetadataFromDriver, getClusterConfig, getProxyConfig, ProxyConfig.IsEnabled,
      IsRunning, VMState.str, testStartConfig, testBundle, noProxyAmbient, hbase, hretry,
      h0, h1, h2, h3, h4, h5, h6, h7, h8, h9, h10, h11, hc, g1, g3, d1, d2, d3]
  · intro ep d1 d2 d3 g8 g9 g10 g11 g12
    simp [Start, startExisting, startPostVM, stepWaitSSH, stepCerts, stepNameServer, stepGetIP,
      stepHostIP, stepProxyEnv, stepDNSPostStart, stepDNSInternal, stepDNSPublic, stepDNSHost,
      stepFirstBoot, stepRenew, stepStartKubelet, stepConfigure, stepKubeletActive, stepApprove,
      stepProxyWait, withEvent, withEvents,
      getBundleMetadataFromDriver, getClusterConfig, getProxyConfig, ProxyConfig.IsEnabled,
      IsRunning, VMState.str, testStartConfig, testBundle, noProxyAmbient, testClusterConfig,
      hbase, hretry,
      h0, h1, h2, h3, h4, h5, h6, h7, h8, h9, h10, h11, hc, g1, g3,
      d1, d2, d3, g8, g9, g10, g11, g12]

/-- Concrete run of claim C8: a failing public-names DNS check does not stop
Start, which ends in success with the host-side check still performed. -/
theorem start_dns_failure_severity_witness :
    Start testStartConfig publicDNSFailEnv =
      (StartOutcome.ok ⟨"crc", true, some testClusterConfig, "Running"⟩,
       [Event.loadMachine, Event.getBundleName, Event.getState, Event.driverStart,
        Event.saveMachine, Event.loadMachine2, Event.getState2, Event.waitForSSH,
        Event.checkCerts, Event.getIP, Event.determineHostIP, Event.applyProxyEnv,
        Event.dnsPostStart, Event.dnsCheckInternal, Event.dnsCheckPublic, Event.dnsCheckHost,
        Event.startKubelet, Event.isActiveKubelet, Event.waitCAFile,
        Event.deleteAPIServerPods, Event.sleepSettle, Event.approveCSR]) :=
  (start_dns_failure_severity publicDNSFailEnv rfl rfl rfl rfl rfl rfl rfl rfl rfl rfl rfl rfl
    rfl rfl rfl rfl).2.2 "public dns unreachable" rfl rfl rfl rfl rfl rfl rfl rfl

end Crc
